import Mathlib

/-!
Verification development for the prawcore transport/authorization layer
(Authorizer + Session request pipeline + error taxonomy).

The repository ships only `prawcore/__init__.py` and `tests/test_sessions.py`;
the modules `sessions.py`, `auth.py` and `exceptions.py` they refer to are not
part of the source tree.  The definitions below therefore model those missing
modules from the specification (spec.md), while every behaviour that the test
suite under `tests/` pins down concretely is modelled exactly as the tests
observe it (the tests are repository code and take precedence over the spec's
prose where the two disagree).
-/

namespace Prawcore

/-- JSON values, the model of parsed response bodies (`response.json()`). -/
inductive Json where
  | null : Json
  | bool : Bool → Json
  | num : Int → Json
  | str : String → Json
  | arr : List Json → Json
  | obj : List (String × Json) → Json
  deriving Repr

/-- Modelled from the spec: the Requestor boundary returns a response carrying
`status_code`, `headers`, raw `content`, and a `json()` view.  `jsonBody` is
`some j` exactly when the body parses as JSON, in which case `j` is the parsed
structure. -/
structure Response where
  status_code : Nat
  headers : List (String × String)
  content : String
  jsonBody : Option Json
  deriving Repr

/-- Case-normalised header lookup (headers are stored lower-cased). -/
def headerGet (hs : List (String × String)) (k : String) : Option String :=
  match hs with
  | [] => none
  | (k', v) :: rest => if k' = k then some v else headerGet rest k

/-- Modelled from the spec: the transport exception kinds the Requestor can
raise (connection error, chunked-encoding error, read timeout). -/
inductive TransportExc where
  | connectionError
  | chunkedEncodingError
  | readTimeout
  deriving Repr, DecidableEq

/-- One underlying transport invocation either raises a transport exception or
returns an HTTP response (of any status). -/
inductive TransportResult where
  | exc (e : TransportExc)
  | ok (r : Response)
  deriving Repr

/-- The closed taxonomy of response-carrying error kinds; every one of these
models a subclass of `ResponseException`. -/
inductive ErrorKind where
  | badRequest
  | invalidToken
  | insufficientScope
  | forbidden
  | notFound
  | conflict
  | tooLarge
  | uriTooLong
  | specialError
  | tooManyRequests
  | unavailableForLegalReasons
  | serverError
  | redirect
  | badJSON
  | generic
  deriving Repr, DecidableEq

/-- Errors a `Session.request` run (or Authorizer setup) can raise.
`responseException k r` models raising the `ResponseException` subclass `k`
carrying the full response `r`; `requestException e i` models a
`RequestException` whose `original_exception` is the transport exception
instance raised on attempt `i` (instances are identified by the index of the
attempt that raised them). -/
inductive SessionError where
  | invalidInvocation
  | requestException (original : TransportExc) (attempt : Nat)
  | responseException (kind : ErrorKind) (response : Response)
  deriving Repr

/-- A decoded successful result: Python `None`, a parsed JSON structure, or a
raw text body. -/
inductive ReqResult where
  | pynone
  | json (j : Json)
  | raw (s : String)
  deriving Repr

/-- The outcome of one `Session.request` call: a decoded value or a raised
typed error. -/
inductive Outcome where
  | ok (v : ReqResult)
  | err (e : SessionError)
  deriving Repr

/-- Modelled from the spec: the 401 insufficient-scope variant is
distinguished from the bad-token variant by a response header marker. -/
def insufficientScopeMarker (r : Response) : Bool :=
  headerGet r.headers "www-authenticate" = some "insufficient_scope"

/-- Modelled from the spec: the transient 5xx statuses retried like transport
exceptions (gateway/cloudflare errors). -/
def retryStatuses : List Nat := [502, 503, 504, 520, 522]

/-- Status → error-kind classification.  Modelled from the spec's taxonomy
table, except that 500 maps to `serverError`: the test
`test_request__internal_server_error` (tests/test_sessions.py:300-305) pins a
500 response to `prawcore.ServerError`. -/
def statusKind (r : Response) : Option ErrorKind :=
  if 300 ≤ r.status_code ∧ r.status_code < 400 then some .redirect
  else if r.status_code = 400 then some .badRequest
  else if r.status_code = 401 then
    some (if insufficientScopeMarker r then .insufficientScope else .invalidToken)
  else if r.status_code = 403 then some .forbidden
  else if r.status_code = 404 then some .notFound
  else if r.status_code = 409 then some .conflict
  else if r.status_code = 413 then some .tooLarge
  else if r.status_code = 414 then some .uriTooLong
  else if r.status_code = 415 then some .specialError
  else if r.status_code = 422 then some .badJSON
  else if r.status_code = 429 then some .tooManyRequests
  else if r.status_code = 451 then some .unavailableForLegalReasons
  else if r.status_code = 500 ∨ r.status_code ∈ retryStatuses then some .serverError
  else if 200 ≤ r.status_code ∧ r.status_code < 300 then none
  else some .generic

/-- A 401 response that signals a bad token (as opposed to insufficient
scope); this is the condition triggering the re-authorization policy. -/
def isInvalidTokenResponse (r : Response) : Bool :=
  r.status_code = 401 && !(insufficientScopeMarker r)

/-- Executable string prefix test on the underlying character lists. -/
def strStartsWith (s p : String) : Bool :=
  go s.data p.data
where
  go : List Char → List Char → Bool
    | _, [] => true
    | [], _ :: _ => false
    | c :: cs, d :: ds => c = d && go cs ds

/-- Enforce a leading slash on a path. -/
def ensureLeadingSlash (p : String) : String :=
  if strStartsWith p "/" then p else "/" ++ p

/-- Modelled from the spec: a `Redirect` error carries the normalized target
path taken from the response's `location` header, leading slash enforced. -/
def redirectPath (r : Response) : String :=
  ensureLeadingSlash ((headerGet r.headers "location").getD "")

/-- Modelled from the spec: the display message of a `TooManyRequests` error,
composed from the `retry-after` header when present. -/
def tooManyRequestsMessage (r : Response) : String :=
  match headerGet r.headers "retry-after" with
  | some v =>
      "received " ++ toString r.status_code ++
        " HTTP response. Please wait at least " ++ v ++
        " seconds before re-trying this request."
  | none => "received " ++ toString r.status_code ++ " HTTP response."

/-- Modelled from the spec: decode the body of a response that passed status
classification.  A 204 yields Python `None`
(`test_request__no_content`); an empty body yields the raw empty string
(`test_request__okay_with_0_byte_content` asserts `""`, not `None`); a body
that parses as JSON yields the parsed structure; any other body raises
`BadJSON` carrying the response (`test_request__bad_json`). -/
def decodeSuccess (r : Response) : Outcome :=
  if r.status_code = 204 then .ok .pynone
  else if r.content = "" then .ok (.raw "")
  else match r.jsonBody with
    | some j => .ok (.json j)
    | none => .err (.responseException .badJSON r)

/-- Classify a response: raise the mapped typed error for a non-2xx status,
otherwise decode the body. -/
def classifyAndDecode (r : Response) : Outcome :=
  match statusKind r with
  | some k => .err (.responseException k r)
  | none => decodeSuccess r

/-- Modelled from the spec: total attempt budget of the retry loop. -/
def attemptBudget : Nat := 3

/-- Result of the bounded exchange loop: either the transport exception of the
final failed attempt (with its attempt index) or the response that exited the
loop. -/
inductive ExchangeResult where
  | transportFail (e : TransportExc) (attempt : Nat)
  | gotResponse (r : Response)
  deriving Repr

/-- Modelled from the spec: the bounded retry loop around the single HTTP
exchange.  `transport i` is the result of the i-th underlying transport
invocation of the run; `start` is the index of this attempt and `fuel` the
number of retries still allowed after it.  Transport exceptions and the
transient 5xx statuses are retried until the budget is exhausted; any other
response exits the loop.  Also returns the number of transport calls made. -/
def exchangeLoop (transport : Nat → TransportResult) (start : Nat) :
    Nat → ExchangeResult × Nat
  | 0 =>
    match transport start with
    | .exc e => (.transportFail e start, 1)
    | .ok r => (.gotResponse r, 1)
  | fuel + 1 =>
    match transport start with
    | .exc _ =>
      let (res, c) := exchangeLoop transport (start + 1) fuel
      (res, c + 1)
    | .ok r =>
      if r.status_code ∈ retryStatuses then
        let (res, c) := exchangeLoop transport (start + 1) fuel
        (res, c + 1)
      else (.gotResponse r, 1)

/-- The Authorizer state, as the Session sees it: the validity flag
(`is_valid()`) and whether the Authorizer exposes a refresh capability (a
refresh token or an equivalent re-derivable credential). -/
structure SessionState where
  authValid : Bool
  canRefresh : Bool
  deriving Repr, DecidableEq

/-- Caller-supplied arguments of one `Session.request` call.  `params` and
`data` model the caller's dictionaries as association lists. -/
structure RequestArgs where
  method : String
  path : String
  params : List (String × String)
  data : List (String × String)
  deriving Repr, DecidableEq

/-- The record of one `Session.request` run: its outcome, how many times the
underlying transport was invoked, how many internal token refreshes happened,
and the contents of the caller's `params`/`data` dictionaries after the call
returns or raises. -/
structure RunResult where
  outcome : Outcome
  transportCalls : Nat
  refreshes : Nat
  paramsAfter : List (String × String)
  dataAfter : List (String × String)
  deriving Repr

/-- Modelled from the spec (sessions.py is not under the source tree):
the `Session.request` pipeline.
1. If the Authorizer is invalid, raise `InvalidInvocation` with no network
   call.
2. Run the bounded retry loop (3 attempts total) over the transport; a final
   transport failure raises `RequestException` wrapping the last exception
   instance.
3. On a bad-token 401: if the Authorizer can refresh, perform exactly one
   silent refresh and retry the original request once (a second bad-token 401
   then raises `InvalidToken`); otherwise raise `InvalidToken` immediately.
4. Otherwise classify the status and decode the body.
The caller's `params`/`data` dictionaries are never mutated: the request is
sent from copies, so their contents after the call equal the contents
before. -/
def Session.request (args : RequestArgs) (s : SessionState)
    (transport : Nat → TransportResult) : RunResult :=
  if s.authValid = false then
    ⟨.err .invalidInvocation, 0, 0, args.params, args.data⟩
  else
    match exchangeLoop transport 0 (attemptBudget - 1) with
    | (.transportFail e i, c) =>
      ⟨.err (.requestException e i), c, 0, args.params, args.data⟩
    | (.gotResponse r, c) =>
      if isInvalidTokenResponse r then
        if s.canRefresh then
          match transport c with
          | .exc e =>
            ⟨.err (.requestException e c), c + 1, 1, args.params, args.data⟩
          | .ok r2 =>
            ⟨classifyAndDecode r2, c + 1, 1, args.params, args.data⟩
        else
          ⟨.err (.responseException .invalidToken r), c, 0, args.params,
            args.data⟩
      else ⟨classifyAndDecode r, c, 0, args.params, args.data⟩

/-- Modelled from the spec + tests: `Session.__init__` raises
`InvalidInvocation` when no Authorizer is provided
(`test_init__without_authenticator`); an Authorizer that is merely invalid is
accepted at construction time and the failure is deferred to the first
request (`test_request__with_invalid_authorizer` constructs such a Session
successfully). -/
def Session.init (authorizer : Option SessionState) :
    Except SessionError SessionState :=
  match authorizer with
  | none => .error .invalidInvocation
  | some a => .ok a

/-- Association-list field lookup in a JSON object. -/
def Json.getField (j : Json) (k : String) : Option Json :=
  match j with
  | .obj fields => lookupField fields k
  | _ => none
where
  lookupField : List (String × Json) → String → Option Json
    | [], _ => none
    | (k', v) :: rest, k => if k' = k then some v else lookupField rest k

/-- Modelled from the spec (auth.py is not under the source tree): the
Authorizer's token-endpoint exchange.  A non-2xx token-endpoint response is
mapped through the same status → error taxonomy as ordinary requests and
raised as the corresponding typed `ResponseException`; a nominal 2xx whose
body lacks an `access_token` field is a protocol violation and fails with a
decoding error. -/
def tokenExchange (resp : Response) : Except SessionError String :=
  if 200 ≤ resp.status_code ∧ resp.status_code < 300 then
    match resp.jsonBody with
    | some j =>
      match j.getField "access_token" with
      | some (.str tok) => .ok tok
      | _ => .error (.responseException .badJSON resp)
    | none => .error (.responseException .badJSON resp)
  else .error (.responseException ((statusKind resp).getD .generic) resp)

/-- Modelled from the spec: Authorizer setup (`refresh()` during
construction of a ready-to-use authorizer) performs one token-endpoint
exchange; on success the resulting Authorizer is valid and refresh-capable,
otherwise setup fails with the exchange's typed error. -/
def authorizerSetup (tokenResp : Response) : Except SessionError SessionState :=
  match tokenExchange tokenResp with
  | .ok _ => .ok ⟨true, true⟩
  | .error e => .error e

/-! ### Concrete fixtures used by witnesses and counterexamples -/

/-- The rows of the error-taxonomy table whose error kind is a function of
the status code alone; the two 401 rows (distinguished by a marker) and the
3xx row are stated separately. -/
def taxonomyTable : List (Nat × ErrorKind) :=
  [(400, .badRequest), (403, .forbidden), (404, .notFound), (409, .conflict),
   (413, .tooLarge), (414, .uriTooLong), (415, .specialError), (422, .badJSON),
   (429, .tooManyRequests), (451, .unavailableForLegalReasons),
   (502, .serverError), (503, .serverError), (504, .serverError),
   (520, .serverError), (522, .serverError)]

/-- A transport that returns the same response on every invocation. -/
def constTransport (r : Response) : Nat → TransportResult := fun _ => .ok r

/-- A response with the given status code and an otherwise empty envelope. -/
def plainResponse (s : Nat) : Response := ⟨s, [], "", none⟩

/-- Sample request arguments for concrete witnesses. -/
def sampleArgs : RequestArgs :=
  ⟨"GET", "/", [("limit", "100")], [("kind", "self")]⟩

/-- Request arguments of the `t/bird` redirect scenario. -/
def birdArgs : RequestArgs := ⟨"GET", "t/bird", [], []⟩

/-- A bad-token 401 response (no insufficient-scope marker). -/
def invalidTokenResponse : Response := ⟨401, [], "", none⟩

/-- The parsed body of a recorded listing response. -/
def listingJson : Json := .obj [("kind", .str "Listing")]

/-- A 200 JSON response as recorded for a listing request. -/
def listingResponse : Response :=
  ⟨200, [("content-type", "application/json")],
    "\x7b\"kind\": \"Listing\"\x7d", some listingJson⟩

/-- Transport of the invalid-access-token retry scenario
(`test_request__with_invalid_access_token__retry`): the first exchange is
rejected with a bad-token 401, the retried exchange succeeds. -/
def refreshRetryTransport : Nat → TransportResult :=
  fun i => if i = 0 then .ok invalidTokenResponse else .ok listingResponse

/-- The 301 response recorded for `t/bird` (`test_request__redirect_301`). -/
def redirectBirdResponse : Response :=
  ⟨301, [("location", "/r/t:bird/")], "", none⟩

/-- A 429 response carrying a retry-after header
(`test_request__too__many_requests__with_retry_headers`). -/
def rateLimitedResponse : Response :=
  ⟨429, [("retry-after", "110")], "\n<!doctype html>", none⟩

/-- The parsed body of the 429 token-endpoint response of
`test_request__too__many_requests__without_retry_headers`. -/
def tooManyRequestsBody : Json :=
  .obj [("message", .str "Too Many Requests"), ("error", .num 429)]

/-- The recorded 429 token-endpoint response without a retry-after header. -/
def rateLimitTokenResponse : Response :=
  ⟨429, [("content-type", "application/json")],
    "\x7b\"message\": \"Too Many Requests\", \"error\": 429\x7d",
    some tooManyRequestsBody⟩

/-! ### Shared lemmas -/

theorem exchangeLoop_const (r : Response)
    (hnr : r.status_code ∉ retryStatuses) (start fuel : Nat) :
    exchangeLoop (constTransport r) start fuel = (.gotResponse r, 1) := by
  cases fuel <;> simp [exchangeLoop, constTransport, hnr]

theorem request_const_noRetry (r : Response) (cr : Bool) (args : RequestArgs)
    (hnr : r.status_code ∉ retryStatuses)
    (hni : isInvalidTokenResponse r = false) :
    Session.request args ⟨true, cr⟩ (constTransport r) =
      ⟨classifyAndDecode r, 1, 0, args.params, args.data⟩ := by
  simp [Session.request, exchangeLoop_const r hnr, hni]

theorem statusKind_retry (r : Response) (hr : r.status_code ∈ retryStatuses) :
    statusKind r = some .serverError := by
  have hs : r.status_code = 502 ∨ r.status_code = 503 ∨ r.status_code = 504 ∨
      r.status_code = 520 ∨ r.status_code = 522 := by
    simpa [retryStatuses] using hr
  rcases hs with h | h | h | h | h <;>
    norm_num [statusKind, retryStatuses, h]

theorem request_const_retryStatus (r : Response) (cr : Bool)
    (args : RequestArgs) (hr : r.status_code ∈ retryStatuses) :
    Session.request args ⟨true, cr⟩ (constTransport r) =
      ⟨.err (.responseException .serverError r), attemptBudget, 0,
        args.params, args.data⟩ := by
  have hs : r.status_code = 502 ∨ r.status_code = 503 ∨ r.status_code = 504 ∨
      r.status_code = 520 ∨ r.status_code = 522 := by
    simpa [retryStatuses] using hr
  have hni : isInvalidTokenResponse r = false := by
    have : r.status_code ≠ 401 := by omega
    simp [isInvalidTokenResponse, this]
  simp [Session.request, attemptBudget, exchangeLoop, constTransport, hr, hni,
    classifyAndDecode, statusKind_retry r hr]

theorem request_const_classified (r : Response) (cr : Bool)
    (args : RequestArgs) (hni : isInvalidTokenResponse r = false)
    (k : ErrorKind) (hsk : statusKind r = some k) :
    (Session.request args ⟨true, cr⟩ (constTransport r)).outcome =
      .err (.responseException k r) := by
  by_cases hr : r.status_code ∈ retryStatuses
  · obtain rfl : ErrorKind.serverError = k :=
      Option.some.inj ((statusKind_retry r hr).symm.trans hsk)
    rw [request_const_retryStatus r cr args hr]
  · rw [request_const_noRetry r cr args hr hni]
    simp [classifyAndDecode, hsk]

theorem statusKind_2xx (r : Response) (h2 : 200 ≤ r.status_code)
    (h3 : r.status_code < 300) : statusKind r = none := by
  have ha : ¬(300 ≤ r.status_code ∧ r.status_code < 400) := by omega
  have hb : r.status_code ≠ 400 := by omega
  have hc : r.status_code ≠ 401 := by omega
  have hd : r.status_code ≠ 403 := by omega
  have he : r.status_code ≠ 404 := by omega
  have hf : r.status_code ≠ 409 := by omega
  have hg : r.status_code ≠ 413 := by omega
  have hh : r.status_code ≠ 414 := by omega
  have hi : r.status_code ≠ 415 := by omega
  have hj : r.status_code ≠ 422 := by omega
  have hk : r.status_code ≠ 429 := by omega
  have hl : r.status_code ≠ 451 := by omega
  have hm : ¬(r.status_code = 500 ∨ r.status_code ∈ retryStatuses) := by
    simp only [retryStatuses, List.mem_cons, List.not_mem_nil, or_false]
    omega
  unfold statusKind
  rw [if_neg ha, if_neg hb, if_neg hc, if_neg hd, if_neg he, if_neg hf,
    if_neg hg, if_neg hh, if_neg hi, if_neg hj, if_neg hk, if_neg hl,
    if_neg hm, if_pos (by omega)]

/-! ### Claim theorems -/

/-- C1: for every HTTP status code listed in the error-taxonomy table, a
`Session.request` call whose responses carry that status raises exactly the
error kind mapped to that status, and the raised error carries that very
response (hence the matching status code).  The 3xx row and the two
marker-distinguished 401 rows are stated as separate conjuncts. -/
theorem request_taxonomy_classification :
    (∀ s k, (s, k) ∈ taxonomyTable → ∀ (r : Response) (cr : Bool)
        (args : RequestArgs), r.status_code = s →
        (Session.request args ⟨true, cr⟩ (constTransport r)).outcome =
          .err (.responseException k r)) ∧
    (∀ (r : Response) (cr : Bool) (args : RequestArgs),
        300 ≤ r.status_code → r.status_code < 400 →
        (Session.request args ⟨true, cr⟩ (constTransport r)).outcome =
          .err (.responseException .redirect r)) ∧
    (∀ (r : Response) (cr : Bool) (args : RequestArgs),
        r.status_code = 401 → insufficientScopeMarker r = true →
        (Session.request args ⟨true, cr⟩ (constTransport r)).outcome =
          .err (.responseException .insufficientScope r)) ∧
    (∀ (r : Response) (cr : Bool) (args : RequestArgs),
        r.status_code = 401 → insufficientScopeMarker r = false →
        (Session.request args ⟨true, cr⟩ (constTransport r)).outcome =
          .err (.responseException .invalidToken r)) := by
  refine ⟨?_, ?_, ?_, ?_⟩
  · intro s k hmem
    fin_cases hmem <;> intro r cr args hs <;>
      exact request_const_classified r cr args
        (by simp [isInvalidTokenResponse, hs]) _
        (by norm_num [statusKind, retryStatuses, hs])
  · intro r cr args h3 h4
    have h401 : r.status_code ≠ 401 := by omega
    refine request_const_classified r cr args
      (by simp [isInvalidTokenResponse, h401]) _ ?_
    simp [statusKind, h3, h4]
  · intro r cr args hs hm
    refine request_const_classified r cr args
      (by simp [isInvalidTokenResponse, hm]) _ ?_
    norm_num [statusKind, hs, hm]
  · intro r cr args hs hm
    have hnr : r.status_code ∉ retryStatuses := by simp [retryStatuses, hs]
    have hit : isInvalidTokenResponse r = true := by
      simp [isInvalidTokenResponse, hs, hm]
    cases cr <;>
      norm_num [Session.request, exchangeLoop_const r hnr, hit, constTransport,
        classifyAndDecode, statusKind, hs, hm]

/-- C1 witness: a constant 409 response makes `request` raise `Conflict`
carrying that response. -/
theorem request_taxonomy_classification_witness :
    (Session.request sampleArgs ⟨true, false⟩
        (constTransport (plainResponse 409))).outcome =
      .err (.responseException .conflict (plainResponse 409)) :=
  request_taxonomy_classification.1 409 .conflict (by decide)
    (plainResponse 409) false sampleArgs rfl

/-- C2: when every transport attempt raises a transport exception, the
transport is invoked exactly `attemptBudget` (3) times and the call raises a
`RequestException` wrapping the exception instance of the last attempt
(attempt index 2). -/
theorem request_transport_exhaustion (args : RequestArgs) (cr : Bool)
    (e : Nat → TransportExc) :
    Session.request args ⟨true, cr⟩ (fun i => .exc (e i)) =
      ⟨.err (.requestException (e 2) 2), attemptBudget, 0,
        args.params, args.data⟩ := by
  simp [Session.request, attemptBudget, exchangeLoop]

/-- C7: a request on a Session whose Authorizer fails `is_valid()` raises
`InvalidInvocation` immediately, with zero transport invocations. -/
theorem request_requires_valid_authorizer (args : RequestArgs)
    (a : SessionState) (t : Nat → TransportResult) (h : a.authValid = false) :
    Session.request args a t =
      ⟨.err .invalidInvocation, 0, 0, args.params, args.data⟩ := by
  simp [Session.request, h]

/-- C7 witness: the invalid-authorizer Session fails a concrete GET with
`InvalidInvocation` and no network call. -/
theorem request_requires_valid_authorizer_witness :
    Session.request sampleArgs ⟨false, true⟩
        (constTransport (plainResponse 200)) =
      ⟨.err .invalidInvocation, 0, 0, sampleArgs.params, sampleArgs.data⟩ :=
  request_requires_valid_authorizer sampleArgs ⟨false, true⟩
    (constTransport (plainResponse 200)) rfl

/-- C3: on a bad-token 401, a refresh-capable Authorizer triggers exactly one
internal refresh followed by exactly one retry of the original request (two
underlying HTTP calls when the retry succeeds); an Authorizer without refresh
capability raises `InvalidToken` immediately with no refresh; and no run of
`request` ever refreshes more than once. -/
theorem request_reauth_policy :
    (∀ (t : Nat → TransportResult) (r1 r2 : Response) (j : Json)
        (args : RequestArgs),
        t 0 = .ok r1 → isInvalidTokenResponse r1 = true →
        t 1 = .ok r2 → r2.status_code = 200 → r2.content ≠ "" →
        r2.jsonBody = some j →
        Session.request args ⟨true, true⟩ t =
          ⟨.ok (.json j), 2, 1, args.params, args.data⟩) ∧
    (∀ (t : Nat → TransportResult) (r1 : Response) (args : RequestArgs),
        t 0 = .ok r1 → isInvalidTokenResponse r1 = true →
        Session.request args ⟨true, false⟩ t =
          ⟨.err (.responseException .invalidToken r1), 1, 0,
            args.params, args.data⟩) ∧
    (∀ (args : RequestArgs) (s : SessionState) (t : Nat → TransportResult),
        (Session.request args s t).refreshes ≤ 1) := by
  refine ⟨?_, ?_, ?_⟩
  · intro t r1 r2 j args h0 hit h1 hs2 hc2 hj2
    have hs1 : r1.status_code = 401 := by
      simp [isInvalidTokenResponse] at hit; exact hit.1
    have hnr : r1.status_code ∉ retryStatuses := by simp [retryStatuses, hs1]
    have hd : classifyAndDecode r2 = .ok (.json j) := by
      have hsk : statusKind r2 = none := by norm_num [statusKind, retryStatuses, hs2]
      norm_num [classifyAndDecode, hsk, decodeSuccess, hs2, hc2, hj2]
    simp [Session.request, attemptBudget, exchangeLoop, h0, hnr, hit, h1, hd]
  · intro t r1 args h0 hit
    have hs1 : r1.status_code = 401 := by
      simp [isInvalidTokenResponse] at hit; exact hit.1
    have hnr : r1.status_code ∉ retryStatuses := by simp [retryStatuses, hs1]
    simp [Session.request, attemptBudget, exchangeLoop, h0, hnr, hit]
  · intro args s t
    unfold Session.request
    split
    · simp
    · split
      · simp
      · split
        · split
          · split <;> simp
          · simp
        · simp

/-- C3 witness: in the recorded invalid-access-token scenario (first exchange
401, retried exchange 200 with a JSON listing) the call returns the parsed
listing after one refresh and two transport calls. -/
theorem request_reauth_policy_witness :
    Session.request sampleArgs ⟨true, true⟩ refreshRetryTransport =
      ⟨.ok (.json listingJson), 2, 1, sampleArgs.params, sampleArgs.data⟩ :=
  request_reauth_policy.1 refreshRetryTransport invalidTokenResponse
    listingResponse listingJson sampleArgs rfl (by decide) rfl rfl
    (by decide) rfl

/-- C5 counterexample: a 500 response makes the model raise `ServerError`
(as `test_request__internal_server_error` demands), not the generic
catch-all `ResponseException` the claim asserts for every 5xx outside
{502,503,504,520,522}. -/
theorem status500_counterexample :
    (Session.request sampleArgs ⟨true, false⟩
        (constTransport (plainResponse 500))).outcome =
      .err (.responseException .serverError (plainResponse 500)) ∧
    ErrorKind.serverError ≠ ErrorKind.generic :=
  ⟨rfl, by decide⟩

/-- C5 amended: 502/503/504/520/522 are retried up to the attempt budget and
then raise `ServerError`; 500 raises `ServerError` on the first response
without transient retry; every other non-transient 5xx raises the generic
catch-all carrying the response. -/
theorem server_error_classification :
    (∀ (r : Response) (cr : Bool) (args : RequestArgs),
        r.status_code ∈ retryStatuses →
        Session.request args ⟨true, cr⟩ (constTransport r) =
          ⟨.err (.responseException .serverError r), attemptBudget, 0,
            args.params, args.data⟩) ∧
    (∀ (r : Response) (cr : Bool) (args : RequestArgs), r.status_code = 500 →
        Session.request args ⟨true, cr⟩ (constTransport r) =
          ⟨.err (.responseException .serverError r), 1, 0,
            args.params, args.data⟩) ∧
    (∀ (r : Response) (cr : Bool) (args : RequestArgs),
        500 ≤ r.status_code → r.status_code < 600 → r.status_code ≠ 500 →
        r.status_code ∉ retryStatuses →
        Session.request args ⟨true, cr⟩ (constTransport r) =
          ⟨.err (.responseException .generic r), 1, 0,
            args.params, args.data⟩) := by
  refine ⟨?_, ?_, ?_⟩
  · intro r cr args hr
    exact request_const_retryStatus r cr args hr
  · intro r cr args hs
    have hnr : r.status_code ∉ retryStatuses := by simp [retryStatuses, hs]
    have hni : isInvalidTokenResponse r = false := by
      simp [isInvalidTokenResponse, hs]
    rw [request_const_noRetry r cr args hnr hni]
    norm_num [classifyAndDecode, statusKind, retryStatuses, hs]
  · intro r cr args h5 h6 hne hnr
    have h401 : r.status_code ≠ 401 := by omega
    have hni : isInvalidTokenResponse r = false := by
      simp [isInvalidTokenResponse, h401]
    have hmem : ¬(r.status_code = 502 ∨ r.status_code = 503 ∨
        r.status_code = 504 ∨ r.status_code = 520 ∨ r.status_code = 522) := by
      simpa [retryStatuses] using hnr
    have hsk : statusKind r = some .generic := by
      have ha : ¬(300 ≤ r.status_code ∧ r.status_code < 400) := by omega
      have hb : r.status_code ≠ 400 := by omega
      have hc : r.status_code ≠ 401 := by omega
      have hd : r.status_code ≠ 403 := by omega
      have he : r.status_code ≠ 404 := by omega
      have hf : r.status_code ≠ 409 := by omega
      have hg : r.status_code ≠ 413 := by omega
      have hh : r.status_code ≠ 414 := by omega
      have hi : r.status_code ≠ 415 := by omega
      have hj : r.status_code ≠ 422 := by omega
      have hk : r.status_code ≠ 429 := by omega
      have hl : r.status_code ≠ 451 := by omega
      have hm : ¬(r.status_code = 500 ∨ r.status_code ∈ retryStatuses) :=
        not_or.mpr ⟨hne, hnr⟩
      have hn : ¬(200 ≤ r.status_code ∧ r.status_code < 300) := by omega
      unfold statusKind
      rw [if_neg ha, if_neg hb, if_neg hc, if_neg hd, if_neg he, if_neg hf,
        if_neg hg, if_neg hh, if_neg hi, if_neg hj, if_neg hk, if_neg hl,
        if_neg hm, if_neg hn]
    rw [request_const_noRetry r cr args hnr hni]
    simp [classifyAndDecode, hsk]

/-- C5 witness: a constant 501 response raises the generic catch-all after a
single transport call. -/
theorem server_error_classification_witness :
    Session.request sampleArgs ⟨true, false⟩
        (constTransport (plainResponse 501)) =
      ⟨.err (.responseException .generic (plainResponse 501)), 1, 0,
        sampleArgs.params, sampleArgs.data⟩ :=
  server_error_classification.2.2 (plainResponse 501) false sampleArgs
    (by decide) (by decide) (by decide) (by decide)

/-- C6 counterexample: constructing a Session with a non-null Authorizer
whose `is_valid()` is false succeeds (as `test_request__with_invalid_authorizer`
shows), so construction does not fail with `InvalidInvocation` as the claim
asserts. -/
theorem session_init_invalid_accepted :
    Session.init (some ⟨false, false⟩) = .ok ⟨false, false⟩ ∧
    Session.init (some ⟨false, false⟩) ≠ .error .invalidInvocation :=
  ⟨rfl, by simp [Session.init]⟩

/-- C6 amended: `Session(None)` fails at construction with
`InvalidInvocation`; a Session built on any non-null Authorizer constructs
successfully, and when that Authorizer fails `is_valid()` the first request
(not the constructor) raises `InvalidInvocation` with no network call. -/
theorem session_construction_policy :
    Session.init none = .error .invalidInvocation ∧
    (∀ a : SessionState, Session.init (some a) = .ok a) ∧
    (∀ (a : SessionState) (args : RequestArgs) (t : Nat → TransportResult),
        a.authValid = false →
        Session.request args a t =
          ⟨.err .invalidInvocation, 0, 0, args.params, args.data⟩) := by
  refine ⟨rfl, fun a => rfl, fun a args t h => ?_⟩
  simp [Session.request, h]

/-- C6 witness: the deferred failure at a concrete invalid authorizer. -/
theorem session_construction_policy_witness :
    Session.request sampleArgs ⟨false, false⟩
        (constTransport (plainResponse 200)) =
      ⟨.err .invalidInvocation, 0, 0, sampleArgs.params, sampleArgs.data⟩ :=
  session_construction_policy.2.2 ⟨false, false⟩ sampleArgs
    (constTransport (plainResponse 200)) rfl

/-- C10: the caller-supplied `params` and `data` dictionaries hold exactly
the same contents after every `request` call, whatever its outcome. -/
theorem request_preserves_caller_dicts (args : RequestArgs)
    (s : SessionState) (t : Nat → TransportResult) :
    (Session.request args s t).paramsAfter = args.params ∧
    (Session.request args s t).dataAfter = args.data := by
  unfold Session.request
  constructor <;>
  · split
    · rfl
    · split
      · rfl
      · split
        · split
          · split <;> rfl
          · rfl
        · rfl

/-- C4 counterexample: a 200 response with an empty body makes `request`
return the raw empty string (as `test_request__okay_with_0_byte_content`
asserts), not `None` as the claim states for every empty body. -/
theorem request_empty_body_counterexample :
    (Session.request sampleArgs ⟨true, false⟩
        (constTransport (plainResponse 200))).outcome = .ok (.raw "") ∧
    (Session.request sampleArgs ⟨true, false⟩
        (constTransport (plainResponse 200))).outcome ≠ .ok .pynone := by
  have h : (Session.request sampleArgs ⟨true, false⟩
      (constTransport (plainResponse 200))).outcome = .ok (.raw "") := rfl
  refine ⟨h, ?_⟩
  rw [h]
  simp

/-- C4 amended: the value returned for a 2xx response is determined by the
status and the body: a 204 yields `None`; any other 2xx with an empty body
yields the raw empty string; a body that parses as JSON yields the parsed
structure; and any other body raises `BadJSON` carrying the response. -/
theorem request_success_decoding (r : Response) (cr : Bool)
    (args : RequestArgs) (h2 : 200 ≤ r.status_code)
    (h3 : r.status_code < 300) :
    (r.status_code = 204 →
      (Session.request args ⟨true, cr⟩ (constTransport r)).outcome =
        .ok .pynone) ∧
    (r.status_code ≠ 204 → r.content = "" →
      (Session.request args ⟨true, cr⟩ (constTransport r)).outcome =
        .ok (.raw "")) ∧
    (∀ j, r.status_code ≠ 204 → r.content ≠ "" → r.jsonBody = some j →
      (Session.request args ⟨true, cr⟩ (constTransport r)).outcome =
        .ok (.json j)) ∧
    (r.status_code ≠ 204 → r.content ≠ "" → r.jsonBody = none →
      (Session.request args ⟨true, cr⟩ (constTransport r)).outcome =
        .err (.responseException .badJSON r)) := by
  have hnr : r.status_code ∉ retryStatuses := by
    intro hmem; simp [retryStatuses] at hmem; omega
  have h401 : r.status_code ≠ 401 := by omega
  have hni : isInvalidTokenResponse r = false := by
    simp [isInvalidTokenResponse, h401]
  have hreq := request_const_noRetry r cr args hnr hni
  have hsk := statusKind_2xx r h2 h3
  refine ⟨?_, ?_, ?_, ?_⟩
  · intro h204
    rw [hreq]; simp [classifyAndDecode, hsk, decodeSuccess, h204]
  · intro h204 hc
    rw [hreq]; simp [classifyAndDecode, hsk, decodeSuccess, h204, hc]
  · intro j h204 hc hj
    rw [hreq]; simp [classifyAndDecode, hsk, decodeSuccess, h204, hc, hj]
  · intro h204 hc hj
    rw [hreq]; simp [classifyAndDecode, hsk, decodeSuccess, h204, hc, hj]

/-- C4 witness: a concrete 204 response yields `None`. -/
theorem request_success_decoding_witness :
    (Session.request sampleArgs ⟨true, false⟩
        (constTransport (plainResponse 204))).outcome = .ok .pynone :=
  (request_success_decoding (plainResponse 204) false sampleArgs
    (by decide) (by decide)).1 rfl

/-- C8: a 429 response with a retry-after header raises `TooManyRequests`
whose message begins with "received 429 HTTP response. Please wait at
least"; and the recorded 429 token-endpoint response without that header
makes Authorizer setup itself fail with a typed `ResponseException` whose
response has status 429 and parses to
`{"message": "Too Many Requests", "error": 429}`. -/
theorem rate_limit_handling :
    (∀ (r : Response) (cr : Bool) (args : RequestArgs) (v : String),
        r.status_code = 429 → headerGet r.headers "retry-after" = some v →
        (Session.request args ⟨true, cr⟩ (constTransport r)).outcome =
          .err (.responseException .tooManyRequests r) ∧
        ∃ rest, tooManyRequestsMessage r =
          "received 429 HTTP response. Please wait at least" ++ rest) ∧
    (authorizerSetup rateLimitTokenResponse =
        .error (.responseException .tooManyRequests rateLimitTokenResponse) ∧
      rateLimitTokenResponse.status_code = 429 ∧
      headerGet rateLimitTokenResponse.headers "retry-after" = none ∧
      rateLimitTokenResponse.jsonBody = some tooManyRequestsBody) := by
  refine ⟨?_, rfl, rfl, rfl, rfl⟩
  intro r cr args v hs hv
  have hni : isInvalidTokenResponse r = false := by
    simp [isInvalidTokenResponse, hs]
  constructor
  · exact request_const_classified r cr args hni _
      (by norm_num [statusKind, retryStatuses, hs])
  · refine ⟨" " ++ v ++ " seconds before re-trying this request.", ?_⟩
    simp only [tooManyRequestsMessage, hv, hs]
    rw [show (toString (429 : Nat)) = "429" from rfl]
    rw [show ("received " ++ "429" ++
          " HTTP response. Please wait at least " : String) =
        "received 429 HTTP response. Please wait at least" ++ " " from
        by decide]
    simp [String.append_assoc]
    rw [show ("received 429 HTTP response. Please wait at least " : String) =
        "received 429 HTTP response. Please wait at least" ++ " " from
        by decide, String.append_assoc]

/-- C8 witness: the recorded rate-limited response (retry-after 110). -/
theorem rate_limit_handling_witness :
    (Session.request sampleArgs ⟨true, false⟩
        (constTransport rateLimitedResponse)).outcome =
      .err (.responseException .tooManyRequests rateLimitedResponse) ∧
    ∃ rest, tooManyRequestsMessage rateLimitedResponse =
      "received 429 HTTP response. Please wait at least" ++ rest :=
  rate_limit_handling.1 rateLimitedResponse false sampleArgs "110" rfl rfl

/-- C9: a 3xx response raises `Redirect` carrying the normalized target
path: in the recorded `t/bird` scenario (301 whose location path is
`/r/t:bird/`) the carried path equals `/r/t:bird/` exactly, and in the
`/r/random` scenario (3xx whose location path starts with `/r/`) the carried
path starts with `/r/`. -/
theorem redirect_normalization :
    (∀ (r : Response) (cr : Bool) (args : RequestArgs),
        args.path = "t/bird" → r.status_code = 301 →
        headerGet r.headers "location" = some "/r/t:bird/" →
        (Session.request args ⟨true, cr⟩ (constTransport r)).outcome =
          .err (.responseException .redirect r) ∧
        redirectPath r = "/r/t:bird/") ∧
    (∀ (r : Response) (cr : Bool) (args : RequestArgs) (loc : String),
        args.path = "/r/random" → 300 ≤ r.status_code → r.status_code < 400 →
        headerGet r.headers "location" = some loc →
        strStartsWith loc "/" = true → strStartsWith loc "/r/" = true →
        (Session.request args ⟨true, cr⟩ (constTransport r)).outcome =
          .err (.responseException .redirect r) ∧
        strStartsWith (redirectPath r) "/r/" = true) := by
  have hcls : ∀ (r : Response) (cr : Bool) (args : RequestArgs),
      300 ≤ r.status_code → r.status_code < 400 →
      (Session.request args ⟨true, cr⟩ (constTransport r)).outcome =
        .err (.responseException .redirect r) := by
    intro r cr args h3 h4
    have h401 : r.status_code ≠ 401 := by omega
    refine request_const_classified r cr args
      (by simp [isInvalidTokenResponse, h401]) _ ?_
    simp [statusKind, h3, h4]
  refine ⟨?_, ?_⟩
  · intro r cr args hpath hs hloc
    refine ⟨hcls r cr args (by omega) (by omega), ?_⟩
    unfold redirectPath
    rw [hloc]
    decide
  · intro r cr args loc hpath h3 h4 hloc h1 h2
    refine ⟨hcls r cr args h3 h4, ?_⟩
    unfold redirectPath
    rw [hloc]
    simp [ensureLeadingSlash, h1, h2]

/-- C9 witness: the recorded 301 for `t/bird`. -/
theorem redirect_normalization_witness :
    (Session.request birdArgs ⟨true, false⟩
        (constTransport redirectBirdResponse)).outcome =
      .err (.responseException .redirect redirectBirdResponse) ∧
    redirectPath redirectBirdResponse = "/r/t:bird/" :=
  redirect_normalization.1 redirectBirdResponse false birdArgs rfl rfl rfl

end Prawcore
